import Mathlib

/-
Shallow embedding of the APALens adapter layer.

The repository has two REST-adapter variants and a GraphQL layer:
  * `src/adapters.py`      — plain variant: `HttpResult`, `HttpAdapter.get`,
    `HttpAdapter.post`, and `GraphQLAdapter` (query / mutation /
    generate_access_token);
  * `src/http_adapter.py`  — key-lowercasing variant: `HttpResult` (which
    deletes a top-level `"copyright"` key), `_transform_keys_in_data`, and
    `HttpAdapter.get`;
  * `src/exceptions.py`    — the single exception class `HttpAdapterException`.

Network I/O is made explicit: each `get`/`post` is modelled as a function of
the response the network layer would deliver.  `none` in `Option Response`
models a transport-layer `requests.exceptions.RequestException`; a `Response`
whose `body` is `none` models a response whose text is not decodable JSON
(`response.json()` raising `ValueError`).  Python exceptions are modelled by
the `PyExc` error channel of `Except`: the repository's own
`HttpAdapterException` plus the built-in `TypeError` / `AttributeError` /
`KeyError` that the adapter code can let escape.  `os.environ.get` is
modelled as an explicit `Option String` argument.
-/

deriving instance DecidableEq for Except

namespace APALens

/-- Python's `str.lower()` as a character-wise lowercase map over the
string's characters (the keys occurring in this code base are ASCII, where
this agrees with Python). -/
def pyLower (s : String) : String := ⟨s.data.map Char.toLower⟩

/-- Decoded JSON values, the possible results of `response.json()`.
Python dicts are modelled as insertion-ordered association lists with
distinct keys (Python dict keys are unique). -/
inductive Json where
  | null : Json
  | bool (b : Bool) : Json
  | num (n : Int) : Json
  | str (s : String) : Json
  | arr (elems : List Json) : Json
  | obj (entries : List (String × Json)) : Json

mutual

/-- Decidable equality on `Json` (the derive handler does not support the
nested induction, so it is spelled out). -/
def Json.decEq : (a b : Json) → Decidable (a = b)
  | .null, .null => .isTrue rfl
  | .bool a, .bool b =>
    if h : a = b then .isTrue (by rw [h])
    else .isFalse (by intro hh; injection hh; contradiction)
  | .num a, .num b =>
    if h : a = b then .isTrue (by rw [h])
    else .isFalse (by intro hh; injection hh; contradiction)
  | .str a, .str b =>
    if h : a = b then .isTrue (by rw [h])
    else .isFalse (by intro hh; injection hh; contradiction)
  | .arr as, .arr bs =>
    match Json.decEqList as bs with
    | .isTrue h => .isTrue (by rw [h])
    | .isFalse h => .isFalse (by intro hh; injection hh; contradiction)
  | .obj as, .obj bs =>
    match Json.decEqEntries as bs with
    | .isTrue h => .isTrue (by rw [h])
    | .isFalse h => .isFalse (by intro hh; injection hh; contradiction)
  | .null, .bool _ | .null, .num _ | .null, .str _ | .null, .arr _ | .null, .obj _
  | .bool _, .null | .bool _, .num _ | .bool _, .str _ | .bool _, .arr _ | .bool _, .obj _
  | .num _, .null | .num _, .bool _ | .num _, .str _ | .num _, .arr _ | .num _, .obj _
  | .str _, .null | .str _, .bool _ | .str _, .num _ | .str _, .arr _ | .str _, .obj _
  | .arr _, .null | .arr _, .bool _ | .arr _, .num _ | .arr _, .str _ | .arr _, .obj _
  | .obj _, .null | .obj _, .bool _ | .obj _, .num _ | .obj _, .str _ | .obj _, .arr _ =>
    .isFalse (by intro hh; exact Json.noConfusion hh)

/-- Decidable equality on lists of `Json`. -/
def Json.decEqList : (as bs : List Json) → Decidable (as = bs)
  | [], [] => .isTrue rfl
  | [], _ :: _ => .isFalse (by intro hh; exact List.noConfusion hh)
  | _ :: _, [] => .isFalse (by intro hh; exact List.noConfusion hh)
  | a :: as, b :: bs =>
    match Json.decEq a b, Json.decEqList as bs with
    | .isTrue h1, .isTrue h2 => .isTrue (by rw [h1, h2])
    | .isFalse h1, _ => .isFalse (by intro hh; injection hh; contradiction)
    | _, .isFalse h2 => .isFalse (by intro hh; injection hh; contradiction)

/-- Decidable equality on association lists of `Json`. -/
def Json.decEqEntries : (as bs : List (String × Json)) → Decidable (as = bs)
  | [], [] => .isTrue rfl
  | [], _ :: _ => .isFalse (by intro hh; exact List.noConfusion hh)
  | _ :: _, [] => .isFalse (by intro hh; exact List.noConfusion hh)
  | (k1, v1) :: as, (k2, v2) :: bs =>
    if hk : k1 = k2 then
      match Json.decEq v1 v2, Json.decEqEntries as bs with
      | .isTrue h1, .isTrue h2 => .isTrue (by rw [hk, h1, h2])
      | .isFalse h1, _ => .isFalse (by
          intro hh
          injection hh with hh1 hh2
          exact h1 (congrArg Prod.snd hh1))
      | _, .isFalse h2 => .isFalse (by intro hh; injection hh; contradiction)
    else
      .isFalse (by
        intro hh
        injection hh with hh1 hh2
        exact hk (congrArg Prod.fst hh1))

end

instance : DecidableEq Json := Json.decEq

/-- Python exceptions that can propagate out of the adapter code:
the repository's `HttpAdapterException` (from `src/exceptions.py`, a single
class whose only content is its `message` string) and the relevant
built-ins. -/
inductive PyExc where
  | httpAdapterException (message : String) : PyExc
  | typeError (message : String) : PyExc
  | attributeError (message : String) : PyExc
  | keyError (message : String) : PyExc
deriving DecidableEq

/-- Python's name for the runtime type of a `Json` value, as it appears in
built-in error messages. -/
def pyTypeName : Json → String
  | .null => "NoneType"
  | .bool _ => "bool"
  | .num _ => "int"
  | .str _ => "str"
  | .arr _ => "list"
  | .obj _ => "dict"

/-- Python truthiness of a decoded JSON value (`if not access_token: ...`). -/
def pyFalsy : Json → Bool
  | .null => true
  | .bool b => !b
  | .num n => n == 0
  | .str s => s == ""
  | .arr elems => elems.isEmpty
  | .obj entries => entries.isEmpty

/-- Python truthiness of an `Optional[str]`: `None` and `""` are falsy. -/
def pyTruthyStr : Option String → Bool
  | none => false
  | some s => !(s == "")

/-- Python's `key in data` for a decoded JSON value: key lookup on a dict,
element membership on a list, substring test on a string, and `TypeError`
on the non-container types. -/
def pyContains (key : String) : Json → Except PyExc Bool
  | .obj entries => .ok (entries.lookup key).isSome
  | .arr elems => .ok (elems.contains (.str key))
  | .str s => .ok (decide (key.toList <:+: s.toList))
  | j => .error (.typeError ("argument of type '" ++ pyTypeName j ++ "' is not iterable"))

/-- Python's `data.get(key, default)`: only dicts have a `get` attribute;
anything else raises `AttributeError` (which is neither a `KeyError` nor a
`TypeError`). -/
def pyDictGet (j : Json) (key : String) (default : Json) : Except PyExc Json :=
  match j with
  | .obj entries => .ok ((entries.lookup key).getD default)
  | _ => .error (.attributeError ("'" ++ pyTypeName j ++ "' object has no attribute 'get'"))

/-- The response a `requests.get`/`requests.post` call delivers: numeric
status, reason phrase, and the decoded JSON body (`none` when the body is
not valid JSON, i.e. `response.json()` raises). -/
structure Response where
  status_code : Nat
  reason : String
  body : Option Json
deriving DecidableEq

namespace adapters

/-- `src/adapters.py` `HttpResult.__init__`: stores the status code, message
and data unchanged (the `int`/`str` coercions are identities here since the
fields are already typed). -/
structure HttpResult where
  status_code : Nat
  message : String
  data : Json
deriving DecidableEq

/-- `src/adapters.py` `HttpAdapter.__init__` base-URL computation: four
branches on Python truthiness of the optional `base_url` and `ver`
arguments. -/
def HttpAdapter.url (ver base_url : Option String) (hostname protocol : String) : String :=
  if pyTruthyStr base_url && pyTruthyStr ver then
    protocol ++ "://" ++ hostname ++ "/" ++ base_url.getD "" ++ "/" ++ ver.getD "" ++ "/"
  else if pyTruthyStr base_url then
    protocol ++ "://" ++ hostname ++ "/" ++ base_url.getD "" ++ "/"
  else if pyTruthyStr ver then
    protocol ++ "://" ++ hostname ++ "/" ++ ver.getD "" ++ "/"
  else
    protocol ++ "://" ++ hostname ++ "/"

/-- `src/adapters.py` `HttpAdapter.get`, from the point where the network
answers: a transport fault (`response = none`) raises
`HttpAdapterException("Request failed")`; an undecodable body raises
`HttpAdapterException("Bad JSON in response")`; then the status-code
classification chain runs. -/
def HttpAdapter.get (response : Option Response) : Except PyExc HttpResult :=
  match response with
  | none => .error (.httpAdapterException "Request failed")
  | some resp =>
    match resp.body with
    | none => .error (.httpAdapterException "Bad JSON in response")
    | some data =>
      if 200 ≤ resp.status_code ∧ resp.status_code ≤ 299 then
        .ok ⟨resp.status_code, resp.reason, data⟩
      else if 400 ≤ resp.status_code ∧ resp.status_code ≤ 499 then
        .ok ⟨resp.status_code, resp.reason, .obj []⟩
      else if 500 ≤ resp.status_code ∧ resp.status_code ≤ 599 then
        .error (.httpAdapterException (toString resp.status_code ++ ": " ++ resp.reason))
      else
        .error (.httpAdapterException (toString resp.status_code ++ ": " ++ resp.reason))

/-- `src/adapters.py` `HttpAdapter.post`, from the point where the network
answers; the response handling is verbatim the same chain as in `get`. -/
def HttpAdapter.post (response : Option Response) : Except PyExc HttpResult :=
  match response with
  | none => .error (.httpAdapterException "Request failed")
  | some resp =>
    match resp.body with
    | none => .error (.httpAdapterException "Bad JSON in response")
    | some data =>
      if 200 ≤ resp.status_code ∧ resp.status_code ≤ 299 then
        .ok ⟨resp.status_code, resp.reason, data⟩
      else if 400 ≤ resp.status_code ∧ resp.status_code ≤ 499 then
        .ok ⟨resp.status_code, resp.reason, .obj []⟩
      else if 500 ≤ resp.status_code ∧ resp.status_code ≤ 599 then
        .error (.httpAdapterException (toString resp.status_code ++ ": " ++ resp.reason))
      else
        .error (.httpAdapterException (toString resp.status_code ++ ": " ++ resp.reason))

end adapters

namespace http_adapter

/-- `src/http_adapter.py` `HttpResult`: same fields as the plain variant. -/
structure HttpResult where
  status_code : Nat
  message : String
  data : Json
deriving DecidableEq

/-- `src/http_adapter.py` `HttpResult.__init__`: stores the fields, then runs
`if "copyright" in data: del data["copyright"]`.  Python's `in` and `del`
are partial on arbitrary decoded JSON, so construction can itself raise a
`TypeError` (e.g. `del` on a list with a `"copyright"` element). -/
def HttpResult.make (status_code : Nat) (message : String) (data : Json) :
    Except PyExc HttpResult :=
  match pyContains "copyright" data with
  | .error e => .error e
  | .ok false => .ok ⟨status_code, message, data⟩
  | .ok true =>
    match data with
    | .obj entries =>
      .ok ⟨status_code, message, .obj (entries.filter (fun e => !(e.1 == "copyright")))⟩
    | .arr _ => .error (.typeError "list indices must be integers or slices, not str")
    | _ => .error (.typeError "string indices must be integers")

/-- `src/http_adapter.py` `HttpAdapter.__init__`: the base URL is the fixed
template `https://{hostname}/api/{ver}/`. -/
def HttpAdapter.url (hostname ver : String) : String :=
  "https://" ++ hostname ++ "/api/" ++ ver ++ "/"

mutual

/-- `src/http_adapter.py` `HttpAdapter._transform_keys_in_data`: recursively
lowercase every dict key; recurse into list elements; leave every other
value unchanged. -/
def HttpAdapter.transform_keys_in_data : Json → Json
  | .obj entries => .obj (HttpAdapter.transformEntries entries)
  | .arr elems => .arr (HttpAdapter.transformElems elems)
  | j => j

/-- The dict branch of `_transform_keys_in_data`: lowercase each key and
recurse into each value, preserving insertion order. -/
def HttpAdapter.transformEntries : List (String × Json) → List (String × Json)
  | [] => []
  | (k, v) :: rest =>
    (pyLower k, HttpAdapter.transform_keys_in_data v) :: HttpAdapter.transformEntries rest

/-- The list branch of `_transform_keys_in_data`: recurse into each element. -/
def HttpAdapter.transformElems : List Json → List Json
  | [] => []
  | x :: rest => HttpAdapter.transform_keys_in_data x :: HttpAdapter.transformElems rest

end

/-- `src/http_adapter.py` `HttpAdapter.get`, from the point where the network
answers: transport fault and JSON-decode checks as in the plain variant,
then the status chain; on 2xx the decoded body is passed through
`_transform_keys_in_data` before the `HttpResult` is built (whose
constructor drops a top-level `"copyright"` key). -/
def HttpAdapter.get (response : Option Response) : Except PyExc HttpResult :=
  match response with
  | none => .error (.httpAdapterException "Request failed")
  | some resp =>
    match resp.body with
    | none => .error (.httpAdapterException "Bad JSON in response")
    | some data =>
      if 200 ≤ resp.status_code ∧ resp.status_code ≤ 299 then
        HttpResult.make resp.status_code resp.reason (HttpAdapter.transform_keys_in_data data)
      else if 400 ≤ resp.status_code ∧ resp.status_code ≤ 499 then
        HttpResult.make resp.status_code resp.reason (.obj [])
      else if 500 ≤ resp.status_code ∧ resp.status_code ≤ 599 then
        .error (.httpAdapterException (toString resp.status_code ++ ": " ++ resp.reason))
      else
        .error (.httpAdapterException (toString resp.status_code ++ ": " ++ resp.reason))

end http_adapter

namespace adapters

/-- `src/adapters.py` `GraphQLAdapter.query` / `.mutation` both reduce to
one HTTP POST; this captures what is sent: the relative path and the JSON
body, in insertion order. -/
structure GraphQLRequest where
  endpoint : String
  body : List (String × Json)
deriving DecidableEq

/-- Python's `variables or {}` on an `Optional[Dict]`: `None` and the empty
dict are falsy and give `{}`. -/
def pyOrEmptyDict : Option (List (String × Json)) → List (String × Json)
  | none => []
  | some v => if v.isEmpty then [] else v

/-- `src/adapters.py` `GraphQLAdapter.query`: builds the payload
`{"query": query, "variables": variables or {}}`, adds `"operationName"`
only when `operation_name` is truthy, and POSTs it to the fixed relative
path `"graphql"`. -/
def GraphQLAdapter.query_request (query : String) (vars : Option (List (String × Json)))
    (operation_name : Option String) : GraphQLRequest :=
  { endpoint := "graphql"
    body := [("query", .str query), ("variables", .obj (pyOrEmptyDict vars))] ++
      (if pyTruthyStr operation_name then [("operationName", .str (operation_name.getD ""))]
       else []) }

/-- `src/adapters.py` `GraphQLAdapter.mutation`: identical to `query` apart
from the name of the string parameter; the string is still sent under the
`"query"` key. -/
def GraphQLAdapter.mutation_request (mutation : String)
    (vars : Option (List (String × Json))) (operation_name : Option String) :
    GraphQLRequest :=
  { endpoint := "graphql"
    body := [("query", .str mutation), ("variables", .obj (pyOrEmptyDict vars))] ++
      (if pyTruthyStr operation_name then [("operationName", .str (operation_name.getD ""))]
       else []) }

/-- The message of the `HttpAdapterException` raised by
`generate_access_token` when no refresh token is available. -/
def missingCredentialMessage : String :=
  "No refresh token provided and APA_REFRESH_TOKEN environment variable not set"

/-- The fixed GraphQL mutation string `generate_access_token` sends. -/
def tokenMutationString : String :=
  "\n        mutation GenerateAccessTokenMutation($refreshToken: String!) \x7b\n          generateAccessToken(refreshToken: $refreshToken) \x7b\n            accessToken\n            __typename\n          \x7d\n        \x7d\n        "

/-- `src/adapters.py` `GraphQLAdapter.generate_access_token`, refresh-token
resolution: the explicit argument wins when it is not `None`; otherwise
`os.environ.get("APA_REFRESH_TOKEN")` (modelled as the `env` argument) is
consulted, and a falsy result (`None` or `""`) raises the missing-credential
`HttpAdapterException`. -/
def GraphQLAdapter.resolve_refresh_token (refresh_token env : Option String) :
    Except PyExc String :=
  match refresh_token with
  | some t => .ok t
  | none =>
    match env with
    | none => .error (.httpAdapterException missingCredentialMessage)
    | some t => if t == "" then .error (.httpAdapterException missingCredentialMessage) else .ok t

/-- `src/adapters.py` `GraphQLAdapter.generate_access_token`, request phase:
resolve the refresh token, then issue `self.mutation(mutation,
variables={"refreshToken": refresh_token})`.  Returns the POST request that
is sent. -/
def GraphQLAdapter.generate_access_token_request (refresh_token env : Option String) :
    Except PyExc GraphQLRequest :=
  match GraphQLAdapter.resolve_refresh_token refresh_token env with
  | .error e => .error e
  | .ok t =>
    .ok (GraphQLAdapter.mutation_request tokenMutationString (some [("refreshToken", .str t)])
      none)

/-- `src/adapters.py` `GraphQLAdapter.generate_access_token`, response phase:
given the `HttpResult` the mutation returned, raise
`HttpAdapterException("Failed to generate access token: {message}")` when
the status is not exactly 200; otherwise run
`result.data.get("data", {}).get("generateAccessToken", {}).get("accessToken")`
with a falsiness check, inside a `try` whose handler catches only
`KeyError` and `TypeError` (an `AttributeError` from calling `.get` on a
non-dict escapes unhandled). -/
def GraphQLAdapter.generate_access_token_from_result (result : HttpResult) :
    Except PyExc Json :=
  if result.status_code ≠ 200 then
    .error (.httpAdapterException ("Failed to generate access token: " ++ result.message))
  else
    let tryBlock : Except PyExc Json :=
      match pyDictGet result.data "data" (.obj []) with
      | .error e => .error e
      | .ok data =>
        match pyDictGet data "generateAccessToken" (.obj []) with
        | .error e => .error e
        | .ok payload =>
          match pyDictGet payload "accessToken" .null with
          | .error e => .error e
          | .ok access_token =>
            if pyFalsy access_token then
              .error (.httpAdapterException "No access token found in response")
            else
              .ok access_token
    match tryBlock with
    | .error (.keyError m) => .error (.httpAdapterException ("Invalid response format: " ++ m))
    | .error (.typeError m) => .error (.httpAdapterException ("Invalid response format: " ++ m))
    | other => other

end adapters

/-- Base-URL formation as the specification states it, for comparison with
the constructors: both `base_path` and `version` present gives
`{protocol}://{hostname}/{base_path}/{version}/`; only `base_path` gives
`{protocol}://{hostname}/{base_path}/`; only `version` gives
`{protocol}://{hostname}/{version}/`; neither gives
`{protocol}://{hostname}/`.  "Present" is read as Python truthiness of the
optional string: provided and non-empty. -/
def specBaseUrl (hostname protocol : String) (version base_path : Option String) : String :=
  if pyTruthyStr base_path && pyTruthyStr version then
    protocol ++ "://" ++ hostname ++ "/" ++ base_path.getD "" ++ "/" ++ version.getD "" ++ "/"
  else if pyTruthyStr base_path then
    protocol ++ "://" ++ hostname ++ "/" ++ base_path.getD "" ++ "/"
  else if pyTruthyStr version then
    protocol ++ "://" ++ hostname ++ "/" ++ version.getD "" ++ "/"
  else
    protocol ++ "://" ++ hostname ++ "/"

/-! Helper lemmas shared by the claim theorems. -/

/-- String append is associative (via the underlying character lists). -/
theorem string_append_assoc (a b c : String) : a ++ b ++ c = a ++ (b ++ c) := by
  apply String.ext
  simp [String.data_append, List.append_assoc]

/-- Filtering out the `"copyright"` key is the identity on an association
list in which that key does not occur. -/
theorem filter_copyright_id (l : List (String × Json))
    (h : l.lookup "copyright" = none) :
    l.filter (fun e => !(e.1 == "copyright")) = l := by
  induction l with
  | nil => rfl
  | cons head rest ih =>
    obtain ⟨k, v⟩ := head
    rw [List.lookup] at h
    cases hbeq : ("copyright" == k) with
    | true => rw [hbeq] at h; cases h
    | false =>
      rw [hbeq] at h
      have hk : (k == "copyright") = false := by
        cases hbeq2 : (k == "copyright") with
        | true =>
          have : k = "copyright" := by simpa [beq_iff_eq] using hbeq2
          subst this
          simp at hbeq
        | false => rfl
      rw [List.filter_cons]
      simp only [hk, Bool.not_false, if_pos]
      rw [ih h]

/-- `HttpResult.make` on a dict body always succeeds and drops a top-level
`"copyright"` entry. -/
theorem make_obj (s : Nat) (m : String) (entries : List (String × Json)) :
    http_adapter.HttpResult.make s m (.obj entries)
      = .ok ⟨s, m, .obj (entries.filter (fun e => !(e.1 == "copyright")))⟩ := by
  unfold http_adapter.HttpResult.make
  simp only [pyContains]
  cases h : (entries.lookup "copyright").isSome with
  | true => simp [h]
  | false =>
    have hnone : entries.lookup "copyright" = none := by
      cases hl : entries.lookup "copyright" with
      | none => rfl
      | some v => rw [hl] at h; cases h
    simp [h, filter_copyright_id entries hnone]

/-- The dict branch of `_transform_keys_in_data` is a map over the entries. -/
theorem transformEntries_eq_map (entries : List (String × Json)) :
    http_adapter.HttpAdapter.transformEntries entries
      = entries.map
          (fun e => (pyLower e.1, http_adapter.HttpAdapter.transform_keys_in_data e.2)) := by
  induction entries with
  | nil => rfl
  | cons head rest ih =>
    obtain ⟨k, v⟩ := head
    rw [http_adapter.HttpAdapter.transformEntries, List.map_cons, ih]

/-- The list branch of `_transform_keys_in_data` is a map over the elements. -/
theorem transformElems_eq_map (elems : List Json) :
    http_adapter.HttpAdapter.transformElems elems
      = elems.map http_adapter.HttpAdapter.transform_keys_in_data := by
  induction elems with
  | nil => rfl
  | cons head rest ih =>
    rw [http_adapter.HttpAdapter.transformElems, List.map_cons, ih]

/-- `variables or \x7b\x7d` agrees with `Option.getD` on the empty dict. -/
theorem pyOrEmptyDict_eq_getD (o : Option (List (String × Json))) :
    adapters.pyOrEmptyDict o = o.getD [] := by
  cases o with
  | none => rfl
  | some v => cases v <;> rfl

/-- C1: for every HTTP response with status code in [400,499] and any decoded
JSON body, `get` and `post` (both variants) return an ordinary Result — they
do not raise — whose `status_code` is that exact code and whose payload is
the empty mapping, the decoded body being discarded. -/
theorem c1_4xx_empty_result (s : Nat) (r : String) (body : Json)
    (h400 : 400 ≤ s) (h499 : s ≤ 499) :
    adapters.HttpAdapter.get (some ⟨s, r, some body⟩) = .ok ⟨s, r, .obj []⟩
    ∧ adapters.HttpAdapter.post (some ⟨s, r, some body⟩) = .ok ⟨s, r, .obj []⟩
    ∧ http_adapter.HttpAdapter.get (some ⟨s, r, some body⟩) = .ok ⟨s, r, .obj []⟩ := by
  refine ⟨?_, ?_, ?_⟩
  · rw [adapters.HttpAdapter.get]
    dsimp only
    rw [if_neg (by omega), if_pos (by omega)]
  · rw [adapters.HttpAdapter.post]
    dsimp only
    rw [if_neg (by omega), if_pos (by omega)]
  · rw [http_adapter.HttpAdapter.get]
    dsimp only
    rw [if_neg (by omega), if_pos (by omega)]
    exact make_obj s r []

/-- Witness for C1 at the concrete status 404. -/
theorem c1_4xx_empty_result_witness :
    adapters.HttpAdapter.get (some ⟨404, "Not Found", some (.obj [("detail", .str "x")])⟩)
      = .ok ⟨404, "Not Found", .obj []⟩ :=
  (c1_4xx_empty_result 404 "Not Found" (.obj [("detail", .str "x")])
    (by decide) (by decide)).1

/-- C2: for every HTTP response with status code in [500,599], and also for
every status code outside [200,599] reaching classification, `get` and
`post` raise an `HttpAdapterException` whose message is exactly
`"{code}: {reason}"`. -/
theorem c2_server_error (s : Nat) (r : String) (body : Json)
    (h : (500 ≤ s ∧ s ≤ 599) ∨ s < 200 ∨ 599 < s) :
    adapters.HttpAdapter.get (some ⟨s, r, some body⟩)
        = .error (.httpAdapterException (toString s ++ ": " ++ r))
    ∧ adapters.HttpAdapter.post (some ⟨s, r, some body⟩)
        = .error (.httpAdapterException (toString s ++ ": " ++ r))
    ∧ http_adapter.HttpAdapter.get (some ⟨s, r, some body⟩)
        = .error (.httpAdapterException (toString s ++ ": " ++ r)) := by
  refine ⟨?_, ?_, ?_⟩
  · rw [adapters.HttpAdapter.get]
    dsimp only
    rw [if_neg (by omega), if_neg (by omega), ite_self]
  · rw [adapters.HttpAdapter.post]
    dsimp only
    rw [if_neg (by omega), if_neg (by omega), ite_self]
  · rw [http_adapter.HttpAdapter.get]
    dsimp only
    rw [if_neg (by omega), if_neg (by omega), ite_self]

/-- Witness for C2 at the concrete status 500. -/
theorem c2_server_error_witness :
    adapters.HttpAdapter.get
        (some ⟨500, "Internal Server Error", some (.obj [("detail", .str "x")])⟩)
      = .error (.httpAdapterException "500: Internal Server Error") :=
  (c2_server_error 500 "Internal Server Error" (.obj [("detail", .str "x")])
    (by omega)).1

/-- C4: for every response whose body is not valid JSON, regardless of its
status code, `get` and `post` raise the malformed-response
`HttpAdapterException("Bad JSON in response")`: the JSON-decode check runs
before status classification, so such a response never produces a
status-classified outcome. -/
theorem c4_bad_json (s : Nat) (r : String) :
    adapters.HttpAdapter.get (some ⟨s, r, none⟩)
        = .error (.httpAdapterException "Bad JSON in response")
    ∧ adapters.HttpAdapter.post (some ⟨s, r, none⟩)
        = .error (.httpAdapterException "Bad JSON in response")
    ∧ http_adapter.HttpAdapter.get (some ⟨s, r, none⟩)
        = .error (.httpAdapterException "Bad JSON in response") :=
  ⟨rfl, rfl, rfl⟩

/-- C3 fails as stated on the key-lowercasing variant: a 2xx response whose
decoded body has a top-level `"Copyright"` key does not come back merely
key-lowercased — the lowercased `"copyright"` entry is also removed by the
`HttpResult` constructor, here leaving the empty payload instead of the
lowercased body. -/
theorem c3_2xx_counterexample :
    http_adapter.HttpAdapter.get (some ⟨200, "OK", some (.obj [("Copyright", .str "x")])⟩)
        = .ok ⟨200, "OK", .obj []⟩
    ∧ Json.obj [] ≠ Json.obj [("copyright", Json.str "x")] := by
  exact ⟨rfl, by decide⟩

/-- C3 amended: for status codes in [200,299] with a JSON-decodable body,
the plain variant's `get`/`post` return a Result with that exact code and
the decoded body unchanged; the key-lowercasing variant, on a mapping body,
returns the body with every mapping key recursively lowercased and the
top-level `"copyright"` key (as produced by the lowercasing) then removed
if present. -/
theorem c3_2xx_payload (s : Nat) (r : String) (body : Json)
    (entries : List (String × Json)) (h200 : 200 ≤ s) (h299 : s ≤ 299) :
    adapters.HttpAdapter.get (some ⟨s, r, some body⟩) = .ok ⟨s, r, body⟩
    ∧ adapters.HttpAdapter.post (some ⟨s, r, some body⟩) = .ok ⟨s, r, body⟩
    ∧ http_adapter.HttpAdapter.get (some ⟨s, r, some (.obj entries)⟩)
        = .ok ⟨s, r, .obj ((entries.map (fun e =>
            (pyLower e.1, http_adapter.HttpAdapter.transform_keys_in_data e.2))).filter
            (fun e => !(e.1 == "copyright")))⟩ := by
  refine ⟨?_, ?_, ?_⟩
  · rw [adapters.HttpAdapter.get]
    dsimp only
    rw [if_pos (by omega)]
  · rw [adapters.HttpAdapter.post]
    dsimp only
    rw [if_pos (by omega)]
  · rw [http_adapter.HttpAdapter.get]
    dsimp only
    rw [if_pos (by omega)]
    simp only [http_adapter.HttpAdapter.transform_keys_in_data, transformEntries_eq_map]
    exact make_obj s r _

/-- Witness for the amended C3 at status 200 on concrete bodies. -/
theorem c3_2xx_payload_witness :
    adapters.HttpAdapter.get (some ⟨200, "OK", some (.obj [("A", .num 1)])⟩)
      = .ok ⟨200, "OK", .obj [("A", .num 1)]⟩ :=
  (c3_2xx_payload 200 "OK" (.obj [("A", .num 1)]) [] (by decide) (by decide)).1

/-- C5: for both REST-adapter variants, the base URL fixed at construction
follows the specification's four precedence cases on (hostname, protocol,
version, base_path), with "present" read as Python truthiness; the plain
variant realises all four cases, and the key-lowercasing variant is the
case with `protocol = "https"` and `base_path = "api"` fixed and its
(non-empty) `ver` always present.  The spec's worked example is included. -/
theorem c5_base_url :
    (∀ (ver base_url : Option String) (hostname protocol : String),
        adapters.HttpAdapter.url ver base_url hostname protocol
          = specBaseUrl hostname protocol ver base_url)
    ∧ (∀ hostname ver : String, ver ≠ "" →
        http_adapter.HttpAdapter.url hostname ver
          = specBaseUrl hostname "https" (some ver) (some "api"))
    ∧ specBaseUrl "custom.api.com" "https" (some "v2") (some "api")
        = "https://custom.api.com/api/v2/" := by
  refine ⟨fun ver base_url hostname protocol => rfl, ?_, by decide⟩
  intro hostname ver hv
  have hbeq : (ver == "") = false := by
    cases hb : (ver == "") with
    | true => exact absurd (by simpa [beq_iff_eq] using hb) hv
    | false => rfl
  have h1 : pyTruthyStr (some "api") = true := rfl
  have h2 : pyTruthyStr (some ver) = true := by simp [pyTruthyStr, hbeq]
  rw [http_adapter.HttpAdapter.url, specBaseUrl, h1, h2]
  simp only [Bool.and_self, if_pos, Option.getD_some]
  apply String.ext
  simp only [String.data_append, List.append_assoc, List.cons_append, List.nil_append]

/-- Witness for C5 at the GraphQL default host and version. -/
theorem c5_base_url_witness :
    http_adapter.HttpAdapter.url "gql.poolplayers.com" "v1"
      = specBaseUrl "gql.poolplayers.com" "https" (some "v1") (some "api") :=
  c5_base_url.2.1 "gql.poolplayers.com" "v1" (by decide)

/-- C8: in the key-lowercasing variant a successful payload
`{"Copyright": "x", "Data": {"Id": 1}}` yields exactly
`{"data": {"id": 1}}`; mapping keys are recursively lowercased, sequence
elements are processed recursively, other values pass through unchanged,
and the top-level key literally named `"copyright"` is then removed. -/
theorem c8_lowercase_and_strip :
    http_adapter.HttpAdapter.get (some ⟨200, "OK",
        some (.obj [("Copyright", .str "x"), ("Data", .obj [("Id", .num 1)])])⟩)
      = .ok ⟨200, "OK", .obj [("data", .obj [("id", .num 1)])]⟩
    ∧ (∀ s, http_adapter.HttpAdapter.transform_keys_in_data (.str s) = .str s)
    ∧ (∀ n, http_adapter.HttpAdapter.transform_keys_in_data (.num n) = .num n)
    ∧ (∀ b, http_adapter.HttpAdapter.transform_keys_in_data (.bool b) = .bool b)
    ∧ http_adapter.HttpAdapter.transform_keys_in_data .null = .null
    ∧ (∀ elems, http_adapter.HttpAdapter.transform_keys_in_data (.arr elems)
        = .arr (elems.map http_adapter.HttpAdapter.transform_keys_in_data)) := by
  refine ⟨by decide, fun s => rfl, fun n => rfl, fun b => rfl, rfl, fun elems => ?_⟩
  simp only [http_adapter.HttpAdapter.transform_keys_in_data, transformElems_eq_map]

/-- C6: the code, evaluated at a 200 response whose payload has a type
mismatch on the extraction path (`payload["data"]` is a string, not a
mapping), raises an uncaught `AttributeError` rather than the
token-extraction `HttpAdapterException` the claim describes — the
`except (KeyError, TypeError)` handler does not catch `AttributeError`. -/
theorem c6_type_mismatch_escapes :
    adapters.GraphQLAdapter.generate_access_token_from_result
        ⟨200, "OK", .obj [("data", .str "oops")]⟩
      = .error (.attributeError "'str' object has no attribute 'get'") := by
  decide

/-- C7: `generate_access_token` with no `refresh_token` argument raises the
missing-credential `HttpAdapterException` when the `APA_REFRESH_TOKEN`
environment default is unavailable (unset, or set to the falsy empty
string); when the environment default is set to a non-empty value the call
proceeds, sending that value as the `refreshToken` variable of the token
mutation. -/
theorem c7_refresh_token_resolution :
    adapters.GraphQLAdapter.generate_access_token_request none none
        = .error (.httpAdapterException adapters.missingCredentialMessage)
    ∧ adapters.GraphQLAdapter.generate_access_token_request none (some "")
        = .error (.httpAdapterException adapters.missingCredentialMessage)
    ∧ ∀ t : String, t ≠ "" →
        ∃ req, adapters.GraphQLAdapter.generate_access_token_request none (some t) = .ok req
          ∧ req.endpoint = "graphql"
          ∧ req.body.lookup "variables" = some (.obj [("refreshToken", .str t)]) := by
  refine ⟨rfl, rfl, fun t ht => ?_⟩
  have hbeq : (t == "") = false := by
    cases hb : (t == "") with
    | true => exact absurd (by simpa [beq_iff_eq] using hb) ht
    | false => rfl
  refine ⟨adapters.GraphQLAdapter.mutation_request adapters.tokenMutationString
      (some [("refreshToken", .str t)]) none, ?_, rfl, rfl⟩
  rw [adapters.GraphQLAdapter.generate_access_token_request,
      adapters.GraphQLAdapter.resolve_refresh_token]
  simp only [hbeq, Bool.false_eq_true, if_false]

/-- Witness for C7 at the concrete environment value "tok". -/
theorem c7_refresh_token_resolution_witness :
    ∃ req,
      adapters.GraphQLAdapter.generate_access_token_request none (some "tok") = .ok req
      ∧ req.endpoint = "graphql"
      ∧ req.body.lookup "variables" = some (.obj [("refreshToken", .str "tok")]) :=
  c7_refresh_token_resolution.2.2 "tok" (by decide)

/-- C9: `query` and `mutation` send the same request: a POST to the fixed
relative path `"graphql"` whose JSON body is exactly the key `"query"`
mapped to the given string and `"variables"` mapped to the given variables
or the empty mapping when absent, with `"operationName"` present exactly
when a (truthy) `operation_name` is provided; in particular with no
variables the body is exactly the two-key mapping. -/
theorem c9_graphql_request_shape :
    (∀ (q : String) (vars : Option (List (String × Json))) (op : Option String),
        adapters.GraphQLAdapter.mutation_request q vars op
          = adapters.GraphQLAdapter.query_request q vars op)
    ∧ (∀ (q : String) (vars : Option (List (String × Json))) (op : Option String),
        (adapters.GraphQLAdapter.query_request q vars op).endpoint = "graphql")
    ∧ (∀ (q : String) (vars : Option (List (String × Json))),
        adapters.GraphQLAdapter.query_request q vars none
          = ⟨"graphql", [("query", .str q), ("variables", .obj (vars.getD []))]⟩)
    ∧ (∀ (q : String) (vars : Option (List (String × Json))) (s : String), s ≠ "" →
        adapters.GraphQLAdapter.query_request q vars (some s)
          = ⟨"graphql", [("query", .str q), ("variables", .obj (vars.getD [])),
              ("operationName", .str s)]⟩)
    ∧ (∀ q : String, adapters.GraphQLAdapter.query_request q none none
        = ⟨"graphql", [("query", .str q), ("variables", .obj [])]⟩) := by
  refine ⟨fun q vars op => rfl, fun q vars op => rfl, ?_, ?_, fun q => rfl⟩
  · intro q vars
    simp [adapters.GraphQLAdapter.query_request, pyOrEmptyDict_eq_getD, pyTruthyStr]
  · intro q vars s hs
    have hbeq : (s == "") = false := by
      cases hb : (s == "") with
      | true => exact absurd (by simpa [beq_iff_eq] using hb) hs
      | false => rfl
    simp [adapters.GraphQLAdapter.query_request, pyOrEmptyDict_eq_getD, pyTruthyStr, hbeq]

/-- Witness for C9 with a concrete operation name. -/
theorem c9_graphql_request_shape_witness :
    adapters.GraphQLAdapter.query_request "q1" none (some "GetTeams")
      = ⟨"graphql", [("query", .str "q1"), ("variables", .obj []),
          ("operationName", .str "GetTeams")]⟩ :=
  c9_graphql_request_shape.2.2.2.1 "q1" none "GetTeams" (by decide)

/-- C10: every failure kind of the spec's taxonomy is raised as the single
exception type `HttpAdapterException` — here the single `PyExc`
constructor `httpAdapterException`, whose only content is its message — so
the kinds are distinguishable only by message.  One concrete raise of each
kind: RequestFailed, MalformedResponse, ServerError, MissingCredential,
TokenRequestFailed, TokenExtractionFailed. -/
theorem c10_single_exception_type :
    (∀ m1 m2 : String,
        PyExc.httpAdapterException m1 = PyExc.httpAdapterException m2 ↔ m1 = m2)
    ∧ adapters.HttpAdapter.get none = .error (.httpAdapterException "Request failed")
    ∧ adapters.HttpAdapter.get (some ⟨200, "OK", none⟩)
        = .error (.httpAdapterException "Bad JSON in response")
    ∧ adapters.HttpAdapter.get (some ⟨503, "Service Unavailable", some (.obj [])⟩)
        = .error (.httpAdapterException "503: Service Unavailable")
    ∧ adapters.GraphQLAdapter.generate_access_token_request none none
        = .error (.httpAdapterException adapters.missingCredentialMessage)
    ∧ adapters.GraphQLAdapter.generate_access_token_from_result ⟨404, "Not Found", .obj []⟩
        = .error (.httpAdapterException "Failed to generate access token: Not Found")
    ∧ adapters.GraphQLAdapter.generate_access_token_from_result ⟨200, "OK", .obj []⟩
        = .error (.httpAdapterException "No access token found in response") := by
  refine ⟨fun m1 m2 => ⟨fun h => by injection h, fun h => by rw [h]⟩,
    rfl, rfl, by decide, rfl, by decide, by decide⟩

end APALens
